import Mathlib

/-!
Shallow embedding of the GetDroned drone (src/src/get_droned.rs).

The drone is a relay node of a simulated packet-switched network: it
validates source-routed packets, forwards them, produces NACKs on errors,
simulates packet loss, and deduplicates flood (discovery) requests.

Modelling choices:
* `NodeId` (Rust `u8`) is `Nat`; ids are only compared for equality, never
  arithmetically, so no wrap-around modelling is needed.
* `f32` drop rates and the uniform random draw are modelled as `ℚ`; the
  claims only involve the exact values 0.0 and 1.0 and strict comparison,
  on which f32 arithmetic is exact.
* Crossbeam channels are modelled by a `NetEnv` giving, for each neighbor
  id, whether a send on its channel succeeds (`alive`).  The `HashMap` of
  neighbor senders becomes the list of its keys (`packet_senders`); the
  `HashSet` of seen floods becomes a list of pairs.
* All observable behavior of one processing step is returned as a list of
  `DroneAction`s: packets put on neighbor channels and events sent to the
  simulation controller, in program order.
* A Rust panic (out-of-bounds index in `validate_packet`) is modelled by
  the `VResult.panic` branch, resp. `none` at the `process_packet` level.
-/

abbrev NodeId := Nat

inductive NodeType
  | Client
  | Drone
  | Server
deriving DecidableEq

structure Fragment where
  fragment_index : Nat
  total_n_fragments : Nat
deriving DecidableEq

structure Ack where
  fragment_index : Nat
deriving DecidableEq

inductive NackType
  | ErrorInRouting : NodeId → NackType
  | DestinationIsDrone : NackType
  | Dropped : NackType
  | UnexpectedRecipient : NodeId → NackType
deriving DecidableEq

structure Nack where
  fragment_index : Nat
  nack_type : NackType
deriving DecidableEq

structure FloodRequest where
  flood_id : Nat
  initiator_id : NodeId
  path_trace : List (NodeId × NodeType)
deriving DecidableEq

structure FloodResponse where
  flood_id : Nat
  path_trace : List (NodeId × NodeType)
deriving DecidableEq

inductive PacketType
  | MsgFragment : Fragment → PacketType
  | Ack : Ack → PacketType
  | Nack : Nack → PacketType
  | FloodRequest : FloodRequest → PacketType
  | FloodResponse : FloodResponse → PacketType
deriving DecidableEq

structure RoutingHeader where
  hop_index : Nat
  hops : List NodeId
deriving DecidableEq

structure Packet where
  pack_type : PacketType
  routing_header : RoutingHeader
  session_id : Nat
deriving DecidableEq

inductive DroneEvent
  | PacketSent : Packet → DroneEvent
  | PacketDropped : Packet → DroneEvent
  | ControllerShortcut : Packet → DroneEvent
deriving DecidableEq

inductive DroneCommand
  | AddSender : NodeId → DroneCommand
  | RemoveSender : NodeId → DroneCommand
  | SetPacketDropRate : ℚ → DroneCommand
  | Crash : DroneCommand

/-- Modelled from the spec: the routing header's next hop is the node id one
past the cursor (spec section 4.2: a packet at a node has its own id at
`hop_index`, the next relay at `hop_index + 1`; the scenario in section 8,
path `[1,2]` with `hop_index = 0` at node 1, forwards to 2). -/
def RoutingHeader.next_hop (rh : RoutingHeader) : Option NodeId :=
  rh.hops.get? (rh.hop_index + 1)

/-- The `hop_index += 1` mutation performed when forwarding. -/
def RoutingHeader.advance (rh : RoutingHeader) : RoutingHeader :=
  { rh with hop_index := rh.hop_index + 1 }

/-- Modelled from the spec: `sub_route(..k)` truncates the header to its
first `k` hops (spec section 4.2: "Truncate the header at hop_index + 1"),
failing when the range exceeds the path, as Rust slicing with `get` does. -/
def RoutingHeader.sub_route_to (rh : RoutingHeader) (k : Nat) : Option RoutingHeader :=
  if k ≤ rh.hops.length then some { hop_index := 0, hops := rh.hops.take k } else none

/-- Modelled from the spec: reversing a header reverses the hop list and
restarts the cursor (spec section 8 scenario: the NACK for path `[5,1]`
travels along `[1,5]`, so its next hop must be `hops` at index 1). -/
def RoutingHeader.get_reversed (rh : RoutingHeader) : RoutingHeader :=
  { hop_index := 0, hops := rh.hops.reverse }

def Packet.advance (p : Packet) : Packet :=
  { p with routing_header := p.routing_header.advance }

/-- Modelled from the spec: a NACK carries the fragment index of the
offending packet (spec section 3); non-fragment packets have index 0. -/
def Packet.get_fragment_index (p : Packet) : Nat :=
  match p.pack_type with
  | .MsgFragment f => f.fragment_index
  | _ => 0

def Packet.new_nack (rh : RoutingHeader) (session_id : Nat) (nack : Nack) : Packet :=
  { pack_type := .Nack nack, routing_header := rh, session_id := session_id }

/-- Modelled from the spec: `increment` appends `(id, type)` to the flood
request's path trace (spec section 4.4 step 2). -/
def FloodRequest.increment (fr : FloodRequest) (id : NodeId) (t : NodeType) : FloodRequest :=
  { fr with path_trace := fr.path_trace ++ [(id, t)] }

/-- Modelled from the spec: a FloodResponse is built by reversing the path
trace into a routing header (spec section 4.4 step 3), cursor at 0 so that
its next hop is the node the request came from. -/
def FloodRequest.generate_response (fr : FloodRequest) (session_id : Nat) : Packet :=
  { pack_type := .FloodResponse { flood_id := fr.flood_id, path_trace := fr.path_trace },
    routing_header := { hop_index := 0, hops := (fr.path_trace.map Prod.fst).reverse },
    session_id := session_id }

/-- The drone's mutable state (struct `GetDroned`): id, drop rate, neighbor
table (keys of the `packet_senders` map), crash flag, seen-floods set. -/
structure GetDroned where
  id : NodeId
  packet_drop_rate : ℚ
  packet_senders : List NodeId
  is_crashed : Bool
  received_floods : List (NodeId × Nat)
deriving DecidableEq

/-- The network environment seen by one processing step: whether a send on
the channel of a given neighbor id succeeds. -/
structure NetEnv where
  alive : NodeId → Bool

/-- An observable effect of one processing step: a packet put on the channel
of a neighbor (`sent`), or an event sent to the simulation controller. -/
inductive DroneAction
  | sent : NodeId → Packet → DroneAction
  | event : DroneEvent → DroneAction
deriving DecidableEq

/-- Function `send_event`: emitting to the controller never fails from the
drone's point of view (a failure is only logged). -/
def send_event (e : DroneEvent) : List DroneAction :=
  [DroneAction.event e]

/-- Body of function `send_packet`, with the actions of the
fragment/flood-request send-failure branch passed in (`onfail`); the Rust
function recursively calls `send_nack` there, see `GetDroned.send_packet`.
If there is a next hop, advance the cursor; if the next hop has a sender and
the channel send succeeds, emit `PacketSent`; if it fails, Fragment and
FloodRequest packets go to `onfail`, other kinds to `ControllerShortcut`
(with the advanced packet); a next hop without a sender entry does nothing;
no next hop at all emits `ControllerShortcut` with the untouched packet. -/
def GetDroned.send_packet_with (self : GetDroned) (env : NetEnv) (p : Packet)
    (onfail : List DroneAction) : List DroneAction :=
  match p.routing_header.next_hop with
  | some nh =>
    if self.packet_senders.contains nh then
      if env.alive nh then
        DroneAction.sent nh p.advance :: send_event (.PacketSent p.advance)
      else
        match p.pack_type with
        | .FloodRequest _ => onfail
        | .MsgFragment _ => onfail
        | _ => send_event (.ControllerShortcut p.advance)
    else []
  | none => send_event (.ControllerShortcut p)

/-- The cursor used by `send_nack`: for `UnexpectedRecipient` it is moved
just past the first hop (scanning from the path start) that is a known
neighbor, when there is one; for every other NACK kind it is the packet's
own hop index. -/
def send_nack_cursor (self : GetDroned) (packet : Packet) (nack_type : NackType) : Nat :=
  match nack_type with
  | .UnexpectedRecipient _ =>
    match packet.routing_header.hops.findIdx? (fun h => self.packet_senders.contains h) with
    | some i => i + 1
    | none => packet.routing_header.hop_index
  | _ => packet.routing_header.hop_index

/-- Function `send_nack`: build the NACK; move the cursor per
`send_nack_cursor`; truncate the header at the cursor plus one, reverse it,
and send the NACK packet like any packet.  If the truncation range exceeds
the path, nothing is sent.  The inner `send_packet` call of the Rust code is
on a Nack-typed packet, whose send-failure branch is `ControllerShortcut`,
so the recursive NACK generation is never reached and an empty `onfail` is
faithful (lemma `send_packet_with_nack_pack`). -/
def GetDroned.send_nack (self : GetDroned) (env : NetEnv) (packet : Packet)
    (nack_type : NackType) : List DroneAction :=
  match RoutingHeader.sub_route_to
      { packet.routing_header with hop_index := send_nack_cursor self packet nack_type }
      (send_nack_cursor self packet nack_type + 1) with
  | some rh =>
    self.send_packet_with env
      (Packet.new_nack rh.get_reversed packet.session_id
        { fragment_index := packet.get_fragment_index, nack_type := nack_type }) []
  | none => []

/-- Function `send_packet`: forward a packet; on a failed channel send of a
Fragment or FloodRequest, fall back to a NACK with `ErrorInRouting(self.id)`
built from the original, pre-advance packet. -/
def GetDroned.send_packet (self : GetDroned) (env : NetEnv) (p : Packet) : List DroneAction :=
  self.send_packet_with env p (self.send_nack env p (.ErrorInRouting self.id))

/-- Function `send_flood_request`: best-effort broadcast of the packet to
every neighbor except the one it was received from; each successful send
emits `PacketSent`, failures are silently ignored. -/
def GetDroned.send_flood_request (self : GetDroned) (env : NetEnv) (packet : Packet)
    (received_from : NodeId) : List DroneAction :=
  (self.packet_senders.map (fun n =>
    if n ≠ received_from then
      if env.alive n then DroneAction.sent n packet :: send_event (.PacketSent packet)
      else []
    else [])).flatten

/-- Result of `validate_packet`: `panic` models the Rust out-of-bounds index
panic, `err` the `Err(NackType)` return, `ok` the `Ok(())` return. -/
inductive VResult
  | panic : VResult
  | err : NackType → VResult
  | ok : VResult
deriving DecidableEq

/-- Function `validate_packet`: unchecked index at `hop_index`; if the hop
there is not this node's id, `UnexpectedRecipient`; advance the (local)
cursor; if it reaches the path length, `DestinationIsDrone`; unchecked index
at the advanced cursor; if that hop is not a known neighbor,
`ErrorInRouting(next_hop)`; else ok. -/
def GetDroned.validate_packet (self : GetDroned) (packet : Packet) : VResult :=
  match packet.routing_header.hops.get? packet.routing_header.hop_index with
  | none => .panic
  | some h =>
    if h ≠ self.id then .err (.UnexpectedRecipient self.id)
    else
      if packet.routing_header.hop_index + 1 = packet.routing_header.hops.length then
        .err .DestinationIsDrone
      else
        match packet.routing_header.hops.get? (packet.routing_header.hop_index + 1) with
        | none => .panic
        | some next_hop =>
          if ¬ self.packet_senders.contains next_hop then .err (.ErrorInRouting next_hop)
          else .ok

/-- Function `process_fragment`: a crashed node NACKs with
`ErrorInRouting(self.id)`; otherwise, if the drop rate is positive and the
random draw `rnd` is below it, NACK with `Dropped` and emit `PacketDropped`;
otherwise forward. -/
def GetDroned.process_fragment (self : GetDroned) (env : NetEnv) (rnd : ℚ)
    (packet : Packet) : List DroneAction :=
  if self.is_crashed then self.send_nack env packet (.ErrorInRouting self.id)
  else if 0 < self.packet_drop_rate ∧ rnd < self.packet_drop_rate then
    self.send_nack env packet .Dropped ++ send_event (.PacketDropped packet)
  else self.send_packet env packet

/-- The sender of a flood request: last entry of the path trace, or the
initiator when the trace is empty. -/
def flood_sender_id (fr : FloodRequest) : NodeId :=
  match fr.path_trace.getLast? with
  | some pr => pr.1
  | none => fr.initiator_id

/-- Function `process_flood_request`: append `(self.id, Drone)` to the path
trace; if the `(initiator, flood_id)` pair was already seen or this node has
exactly one neighbor, send back the generated FloodResponse; otherwise mark
the pair seen and broadcast the updated request to all neighbors except the
sender.  Returns the actions and the updated drone state. -/
def GetDroned.process_flood_request (self : GetDroned) (env : NetEnv) (packet : Packet)
    (flood_request : FloodRequest) : List DroneAction × GetDroned :=
  let sender_id := flood_sender_id flood_request
  let fr := flood_request.increment self.id .Drone
  if (fr.initiator_id, fr.flood_id) ∈ self.received_floods ∨ self.packet_senders.length = 1 then
    (self.send_packet env (fr.generate_response packet.session_id), self)
  else
    let self' : GetDroned :=
      { self with received_floods := (fr.initiator_id, fr.flood_id) :: self.received_floods }
    (self'.send_flood_request env { packet with pack_type := .FloodRequest fr } sender_id, self')

/-- Function `process_packet`: fragments are validated and, on success, go
through the drop simulation; on a validation error they are NACKed with the
returned reason.  Flood requests bypass validation.  Ack, Nack and
FloodResponse packets are forwarded when valid and escalated to the
controller (`ControllerShortcut`) when not.  `none` models the Rust panic on
an out-of-bounds hop index. -/
def GetDroned.process_packet (self : GetDroned) (env : NetEnv) (rnd : ℚ)
    (packet : Packet) : Option (List DroneAction × GetDroned) :=
  match packet.pack_type with
  | .MsgFragment _ =>
    match self.validate_packet packet with
    | .panic => none
    | .ok => some (self.process_fragment env rnd packet, self)
    | .err nt => some (self.send_nack env packet nt, self)
  | .FloodRequest fr => some (self.process_flood_request env packet fr)
  | _ =>
    match self.validate_packet packet with
    | .panic => none
    | .ok => some (self.send_packet env packet, self)
    | .err _ => some (send_event (.ControllerShortcut packet), self)

/-- Function `add_neighbor_sender`: `HashMap::insert` on the key set. -/
def GetDroned.add_neighbor_sender (self : GetDroned) (id : NodeId) : GetDroned :=
  if self.packet_senders.contains id then self
  else { self with packet_senders := self.packet_senders ++ [id] }

/-- Function `remove_neighbor_sender`: `HashMap::remove` on the key set. -/
def GetDroned.remove_neighbor_sender (self : GetDroned) (id : NodeId) : GetDroned :=
  { self with packet_senders := self.packet_senders.erase id }

/-- Function `process_command`: AddSender, RemoveSender, SetPacketDropRate
and Crash each mutate exactly one piece of state. -/
def GetDroned.process_command (self : GetDroned) (c : DroneCommand) : GetDroned :=
  match c with
  | .AddSender id => self.add_neighbor_sender id
  | .RemoveSender id => self.remove_neighbor_sender id
  | .SetPacketDropRate pdr => { self with packet_drop_rate := pdr }
  | .Crash => { self with is_crashed := true }

/-- The packet carried by an action (every action carries exactly one). -/
def DroneAction.packet : DroneAction → Packet
  | .sent _ p => p
  | .event (.PacketSent p) => p
  | .event (.PacketDropped p) => p
  | .event (.ControllerShortcut p) => p

def Packet.isMsgFragment (p : Packet) : Bool :=
  match p.pack_type with
  | .MsgFragment _ => true
  | _ => false

def Packet.isFloodReq (p : Packet) : Bool :=
  match p.pack_type with
  | .FloodRequest _ => true
  | _ => false

def Packet.isDroppedNack (p : Packet) : Bool :=
  match p.pack_type with
  | .Nack n =>
    match n.nack_type with
    | .Dropped => true
    | _ => false
  | _ => false

def PacketType.isFragOrFlood : PacketType → Bool
  | .MsgFragment _ => true
  | .FloodRequest _ => true
  | _ => false

def DroneAction.isFragmentSend : DroneAction → Bool
  | .sent _ p => p.isMsgFragment
  | _ => false

def DroneAction.isFloodRequestSend : DroneAction → Bool
  | .sent _ p => p.isFloodReq
  | _ => false

def DroneAction.isPacketDroppedEvent : DroneAction → Bool
  | .event (.PacketDropped _) => true
  | _ => false

/-- Whether an action carries a NACK packet of the given type. -/
def carriesNackOfType (a : DroneAction) (nt : NackType) : Bool :=
  match a.packet.pack_type with
  | .Nack n => n.nack_type == nt
  | _ => false

/-- Spec-side contract, written from the words of spec section 4.2
(`validateRoute`), to be compared with the code's `validate_packet`:
wrong id at the current hop index gives `UnexpectedRecipient(self)`; an
advanced index equal to the path length gives `DestinationIsDrone`; an
unknown neighbor at the advanced index gives `ErrorInRouting(next_hop)`;
otherwise Ok. -/
def validateRoute (self : GetDroned) (rh : RoutingHeader) : Except NackType Unit :=
  if rh.hops.getD rh.hop_index 0 ≠ self.id then .error (.UnexpectedRecipient self.id)
  else if rh.hop_index + 1 = rh.hops.length then .error .DestinationIsDrone
  else if ¬ self.packet_senders.contains (rh.hops.getD (rh.hop_index + 1) 0) then
    .error (.ErrorInRouting (rh.hops.getD (rh.hop_index + 1) 0))
  else .ok ()

/-- Embed an `Except` result into `VResult` (no panic case). -/
def VResult.ofResult : Except NackType Unit → VResult
  | .ok _ => VResult.ok
  | .error n => VResult.err n

/-- The `ErrorInRouting(j)` NACK packet built by `send_nack` from `p` (for
any NACK kind other than `UnexpectedRecipient`), as it looks when put on a
channel: path reversed after truncation at the hop index, cursor advanced
to 1. -/
def errorNackPacket (self : GetDroned) (p : Packet) (j : NodeId) : Packet :=
  { pack_type := .Nack { fragment_index := p.get_fragment_index,
                         nack_type := .ErrorInRouting j },
    routing_header :=
      { hop_index := 1,
        hops := (p.routing_header.hops.take (p.routing_header.hop_index + 1)).reverse },
    session_id := p.session_id }

/-! ### Helper lemmas about the sending primitives -/

/-- For a packet that is neither a fragment nor a flood request, the
send-failure fallback is irrelevant. -/
theorem send_packet_with_onfail_irrel (self : GetDroned) (env : NetEnv) (p : Packet)
    (h : p.pack_type.isFragOrFlood = false) (a b : List DroneAction) :
    self.send_packet_with env p a = self.send_packet_with env p b := by
  obtain ⟨pt, rh, sid⟩ := p
  cases hnh : rh.next_hop <;> cases pt <;>
    simp_all [GetDroned.send_packet_with, PacketType.isFragOrFlood, Packet.advance]

/-- A `send_packet_with` call on a Nack-typed packet equals the full
`send_packet` on it: the recursive failure branch of the Rust code is
unreachable for NACK packets. -/
theorem send_packet_with_nack_pack (self : GetDroned) (env : NetEnv) (q : Packet) (nk : Nack)
    (hq : q.pack_type = .Nack nk) (of : List DroneAction) :
    self.send_packet_with env q of = self.send_packet env q := by
  unfold GetDroned.send_packet
  exact send_packet_with_onfail_irrel self env q (by simp [hq, PacketType.isFragOrFlood]) _ _

/-- Every action produced by `send_packet_with` is either from the failure
fallback, a send or `PacketSent` of the advanced packet, or a
`ControllerShortcut` of the advanced or original packet. -/
theorem mem_send_packet_with {self : GetDroned} {env : NetEnv} {p : Packet}
    {onfail : List DroneAction} {a : DroneAction}
    (ha : a ∈ self.send_packet_with env p onfail) :
    a ∈ onfail ∨ (∃ nh, a = DroneAction.sent nh p.advance)
      ∨ a = DroneAction.event (.PacketSent p.advance)
      ∨ a = DroneAction.event (.ControllerShortcut p.advance)
      ∨ a = DroneAction.event (.ControllerShortcut p) := by
  unfold GetDroned.send_packet_with at ha
  split at ha
  all_goals try split at ha
  all_goals try split at ha
  all_goals try split at ha
  all_goals try simp only [send_event, List.mem_cons, List.mem_singleton,
    List.not_mem_nil] at ha
  all_goals tauto

/-- Every action produced by `send_nack` carries the built NACK packet:
either it is put on a neighbor channel, or it rides a `PacketSent` or
`ControllerShortcut` event. -/
theorem mem_send_nack {self : GetDroned} {env : NetEnv} {packet : Packet} {nt : NackType}
    {a : DroneAction} (ha : a ∈ self.send_nack env packet nt) :
    ∃ q : Packet,
      q.pack_type = .Nack { fragment_index := packet.get_fragment_index, nack_type := nt } ∧
      ((∃ nh, a = DroneAction.sent nh q) ∨ a = DroneAction.event (.PacketSent q)
        ∨ a = DroneAction.event (.ControllerShortcut q)) := by
  unfold GetDroned.send_nack at ha
  split at ha
  · rcases mem_send_packet_with ha with h | ⟨nh, h⟩ | h | h | h
    · simp at h
    · exact ⟨_, rfl, Or.inl ⟨nh, h⟩⟩
    · exact ⟨_, rfl, Or.inr (Or.inl h)⟩
    · exact ⟨_, rfl, Or.inr (Or.inr h)⟩
    · exact ⟨_, rfl, Or.inr (Or.inr h)⟩
  · simp at ha

/-- Every action produced by `send_packet` either carries the forwarded
packet (advanced, or untouched for the terminal `ControllerShortcut`), or
carries the `ErrorInRouting(self.id)` NACK built from it. -/
theorem mem_send_packet {self : GetDroned} {env : NetEnv} {p : Packet} {a : DroneAction}
    (ha : a ∈ self.send_packet env p) :
    (∃ nh, a = DroneAction.sent nh p.advance)
      ∨ a = DroneAction.event (.PacketSent p.advance)
      ∨ a = DroneAction.event (.ControllerShortcut p.advance)
      ∨ a = DroneAction.event (.ControllerShortcut p)
      ∨ ∃ q : Packet,
          q.pack_type = .Nack { fragment_index := p.get_fragment_index,
                                nack_type := .ErrorInRouting self.id } ∧
          ((∃ nh, a = DroneAction.sent nh q) ∨ a = DroneAction.event (.PacketSent q)
            ∨ a = DroneAction.event (.ControllerShortcut q)) := by
  unfold GetDroned.send_packet at ha
  rcases mem_send_packet_with ha with h | h | h | h | h
  · exact Or.inr (Or.inr (Or.inr (Or.inr (mem_send_nack h))))
  · exact Or.inl h
  · exact Or.inr (Or.inl h)
  · exact Or.inr (Or.inr (Or.inl h))
  · exact Or.inr (Or.inr (Or.inr (Or.inl h)))

/-- A successful validation implies the hop index is in bounds. -/
theorem validate_ok_lt {self : GetDroned} {p : Packet}
    (hv : self.validate_packet p = .ok) :
    p.routing_header.hop_index < p.routing_header.hops.length := by
  unfold GetDroned.validate_packet at hv
  rcases h : p.routing_header.hops.get? p.routing_header.hop_index with _ | v <;>
    rw [h] at hv
  · exact absurd hv (by simp)
  · obtain ⟨hlt, -⟩ := List.get?_eq_some.mp h
    exact hlt

/-- An in-bounds hop index never panics in `validate_packet`. -/
theorem validate_packet_ne_panic {self : GetDroned} {p : Packet}
    (hlt : p.routing_header.hop_index < p.routing_header.hops.length) :
    self.validate_packet p ≠ .panic := by
  intro hcontra
  unfold GetDroned.validate_packet at hcontra
  simp only [List.get?_eq_get hlt] at hcontra
  split at hcontra
  · exact absurd hcontra (by simp)
  · split at hcontra
    · exact absurd hcontra (by simp)
    · have hlt2 : p.routing_header.hop_index + 1 < p.routing_header.hops.length := by
        omega
      simp only [List.get?_eq_get hlt2] at hcontra
      split at hcontra <;> exact absurd hcontra (by simp)

/-! ### Claim theorems -/

/-- Claim C10: `validate_packet` indexes the hop list without a bounds
check: it panics exactly when the packet's hop index is not a valid position
of the hop list, so the access is safe only under that precondition (and the
panic branch is reachable, e.g. for an empty hop list). -/
theorem validate_packet_panic_iff (self : GetDroned) (p : Packet) :
    self.validate_packet p = .panic ↔
      p.routing_header.hops.length ≤ p.routing_header.hop_index := by
  constructor
  · intro h
    by_contra hge
    push_neg at hge
    exact validate_packet_ne_panic hge h
  · intro h
    unfold GetDroned.validate_packet
    rw [List.get?_eq_none.mpr h]

/-- Claim C1: under the spec's in-flight invariant (the hop index is a valid
position of the hop list), `validate_packet` implements the spec's
`validateRoute` contract: `UnexpectedRecipient(self.id)` when the hop at the
current index is not this node's id, then, after advancing the index,
`DestinationIsDrone` when it reaches the path length,
`ErrorInRouting(next_hop)` when the hop there is not a known neighbor, and
Ok otherwise. -/
theorem validate_packet_meets_validateRoute (self : GetDroned) (p : Packet)
    (h : p.routing_header.hop_index < p.routing_header.hops.length) :
    self.validate_packet p = VResult.ofResult (validateRoute self p.routing_header) := by
  unfold GetDroned.validate_packet validateRoute
  have hgd : p.routing_header.hops.get ⟨p.routing_header.hop_index, h⟩ =
      p.routing_header.hops.getD p.routing_header.hop_index 0 :=
    (List.getD_eq_get _ _ h).symm
  simp only [List.get?_eq_get h, hgd]
  split
  · rfl
  · split
    · rfl
    · have h2 : p.routing_header.hop_index + 1 < p.routing_header.hops.length := by
        omega
      have hgd2 : p.routing_header.hops.get ⟨p.routing_header.hop_index + 1, h2⟩ =
          p.routing_header.hops.getD (p.routing_header.hop_index + 1) 0 :=
        (List.getD_eq_get _ _ h2).symm
      simp only [List.get?_eq_get h2, hgd2]
      split <;> rfl

/-- Witness for C1 at a concrete drone and packet. -/
theorem validate_packet_meets_validateRoute_witness :
    (0 : Nat) < 2 ∧
      ({ id := 1, packet_drop_rate := 0, packet_senders := [2], is_crashed := false,
         received_floods := [] } : GetDroned).validate_packet
          { pack_type := .Ack { fragment_index := 0 },
            routing_header := { hop_index := 0, hops := [1, 2] }, session_id := 0 }
        = VResult.ofResult (validateRoute
            { id := 1, packet_drop_rate := 0, packet_senders := [2], is_crashed := false,
              received_floods := [] }
            { hop_index := 0, hops := [1, 2] }) :=
  ⟨by decide, validate_packet_meets_validateRoute _ _ (by decide)⟩

/-- Claim C2: `send_packet` behavior.  No next hop: a `ControllerShortcut`
event with the packet and no send.  Next hop with a live channel: the
advanced packet is sent and a `PacketSent` event with it is emitted.  Next
hop whose channel send fails: Fragment and FloodRequest packets fall back to
`send_nack` with `ErrorInRouting(self.id)` on the original, pre-advance
packet; Ack, Nack and FloodResponse packets get a `ControllerShortcut` event
with the advanced packet. -/
theorem send_packet_contract (self : GetDroned) (env : NetEnv) (p : Packet) :
    (p.routing_header.next_hop = none →
      self.send_packet env p = [DroneAction.event (.ControllerShortcut p)])
    ∧ ∀ nh, p.routing_header.next_hop = some nh →
        self.packet_senders.contains nh = true →
        ((env.alive nh = true →
          self.send_packet env p =
            [DroneAction.sent nh p.advance, DroneAction.event (.PacketSent p.advance)])
        ∧ (env.alive nh = false → p.pack_type.isFragOrFlood = true →
            self.send_packet env p = self.send_nack env p (.ErrorInRouting self.id))
        ∧ (env.alive nh = false → p.pack_type.isFragOrFlood = false →
            self.send_packet env p =
              [DroneAction.event (.ControllerShortcut p.advance)])) := by
  refine ⟨?_, ?_⟩
  · intro hnone
    unfold GetDroned.send_packet GetDroned.send_packet_with
    simp only [hnone, send_event]
  · intro nh hnh hmem
    refine ⟨?_, ?_, ?_⟩
    · intro halive
      unfold GetDroned.send_packet GetDroned.send_packet_with
      simp only [hnh, hmem, halive, if_true, send_event]
    · intro hdead hty
      unfold GetDroned.send_packet GetDroned.send_packet_with
      simp only [hnh, hmem, hdead, if_true, Bool.false_eq_true, if_false]
      obtain ⟨pt, rh, sid⟩ := p
      cases pt <;> simp_all [PacketType.isFragOrFlood]
    · intro hdead hty
      unfold GetDroned.send_packet GetDroned.send_packet_with
      simp only [hnh, hmem, hdead, if_true, Bool.false_eq_true, if_false]
      obtain ⟨pt, rh, sid⟩ := p
      cases pt <;> simp_all [PacketType.isFragOrFlood, send_event]

/-- Witness for C2: a packet already at its path end (no next hop) is
escalated to the controller, and a live next hop leads to a send plus a
`PacketSent` event; both at concrete inputs. -/
theorem send_packet_contract_witness :
    ({ id := 1, packet_drop_rate := 0, packet_senders := [2], is_crashed := false,
       received_floods := [] } : GetDroned).send_packet ⟨fun _ => true⟩
        { pack_type := .Ack { fragment_index := 0 },
          routing_header := { hop_index := 1, hops := [5, 1] }, session_id := 0 }
      = [DroneAction.event (.ControllerShortcut
          { pack_type := .Ack { fragment_index := 0 },
            routing_header := { hop_index := 1, hops := [5, 1] }, session_id := 0 })]
    ∧ ({ id := 1, packet_drop_rate := 0, packet_senders := [2], is_crashed := false,
         received_floods := [] } : GetDroned).send_packet ⟨fun _ => true⟩
          { pack_type := .Ack { fragment_index := 0 },
            routing_header := { hop_index := 0, hops := [1, 2] }, session_id := 0 }
        = [DroneAction.sent 2
            { pack_type := .Ack { fragment_index := 0 },
              routing_header := { hop_index := 1, hops := [1, 2] }, session_id := 0 },
           DroneAction.event (.PacketSent
            { pack_type := .Ack { fragment_index := 0 },
              routing_header := { hop_index := 1, hops := [1, 2] }, session_id := 0 })] :=
  ⟨(send_packet_contract _ _ _).1 (by decide),
   ((send_packet_contract _ _ _).2 2 (by decide) (by decide)).1 (by decide)⟩

/-- Counterexample to claim C3 as stated.  At a drone with id 1 and
neighbors 2 and 9: an Ack packet whose current hop (7) is not this node's id
produces only a `ControllerShortcut`, no `UnexpectedRecipient` NACK; and for
a Fragment with path `[7,2,9]`, the emitted NACK travels on path `[9,2,7]` -
the reverse of the path truncated one hop PAST the first known neighbor
(hop 2 at index 1), not the reverse of the path truncated at that hop. -/
theorem unexpected_recipient_nack_counterexample :
    ((({ id := 1, packet_drop_rate := 0, packet_senders := [2, 9], is_crashed := false,
         received_floods := [] } : GetDroned).process_packet ⟨fun _ => true⟩ 0
          { pack_type := .Ack { fragment_index := 0 },
            routing_header := { hop_index := 0, hops := [7, 2, 9] },
            session_id := 0 }).map Prod.fst
      = some [DroneAction.event (.ControllerShortcut
          { pack_type := .Ack { fragment_index := 0 },
            routing_header := { hop_index := 0, hops := [7, 2, 9] },
            session_id := 0 })])
    ∧ carriesNackOfType
        (DroneAction.event (.ControllerShortcut
          { pack_type := .Ack { fragment_index := 0 },
            routing_header := { hop_index := 0, hops := [7, 2, 9] },
            session_id := 0 })) (.UnexpectedRecipient 1) = false
    ∧ ((({ id := 1, packet_drop_rate := 0, packet_senders := [2, 9], is_crashed := false,
           received_floods := [] } : GetDroned).process_packet ⟨fun _ => true⟩ 0
            { pack_type := .MsgFragment { fragment_index := 0, total_n_fragments := 1 },
              routing_header := { hop_index := 0, hops := [7, 2, 9] },
              session_id := 0 }).map Prod.fst
        = some [DroneAction.sent 2
            { pack_type := .Nack { fragment_index := 0, nack_type := .UnexpectedRecipient 1 },
              routing_header := { hop_index := 1, hops := [9, 2, 7] }, session_id := 0 },
           DroneAction.event (.PacketSent
            { pack_type := .Nack { fragment_index := 0, nack_type := .UnexpectedRecipient 1 },
              routing_header := { hop_index := 1, hops := [9, 2, 7] }, session_id := 0 })])
    ∧ ([9, 2, 7] : List NodeId) ≠ [2, 7]
    ∧ ([9, 2, 7] : List NodeId) ≠ [7] := by
  refine ⟨by decide, by decide, by decide, by decide, by decide⟩

/-- Claim C3 (amended): only MsgFragment packets with a wrong (in-bounds)
current hop are NACKed with `UnexpectedRecipient`; Ack, Nack and
FloodResponse packets with the same wrong hop produce only a
`ControllerShortcut` event, and FloodRequest packets bypass validation
entirely and go to the flood engine.  The NACK's path is the reverse of the
original path truncated one hop past the first hop (scanning from the path
start) that is a known neighbor - that hop is indeed a known neighbor and is
the reversed header's next hop; if it is the last hop of the path nothing is
sent at all, and if no hop is a known neighbor the truncation falls back to
the packet's hop index plus one. -/
theorem unexpected_recipient_nack_amended (self : GetDroned) (env : NetEnv) (rnd : ℚ)
    (p : Packet)
    (hidx : p.routing_header.hop_index < p.routing_header.hops.length)
    (hwrong : p.routing_header.hops.getD p.routing_header.hop_index 0 ≠ self.id) :
    ((∃ f, p.pack_type = .MsgFragment f) →
      self.process_packet env rnd p
        = some (self.send_nack env p (.UnexpectedRecipient self.id), self))
    ∧ ((∃ k, p.pack_type = .Ack k) ∨ (∃ k, p.pack_type = .Nack k)
        ∨ (∃ k, p.pack_type = .FloodResponse k) →
      self.process_packet env rnd p
        = some ([DroneAction.event (.ControllerShortcut p)], self))
    ∧ (∀ fr, p.pack_type = .FloodRequest fr →
      self.process_packet env rnd p = some (self.process_flood_request env p fr))
    ∧ (∀ i, p.routing_header.hops.findIdx? (fun h => self.packet_senders.contains h)
          = some i →
        (∃ nb, p.routing_header.hops.get? i = some nb
          ∧ self.packet_senders.contains nb = true)
        ∧ self.send_nack env p (.UnexpectedRecipient self.id) =
            (if i + 1 + 1 ≤ p.routing_header.hops.length then
              self.send_packet_with env
                { pack_type := .Nack { fragment_index := p.get_fragment_index,
                                       nack_type := .UnexpectedRecipient self.id },
                  routing_header :=
                    { hop_index := 0,
                      hops := (p.routing_header.hops.take (i + 1 + 1)).reverse },
                  session_id := p.session_id } []
            else [])
        ∧ (i + 1 + 1 ≤ p.routing_header.hops.length →
            ({ hop_index := 0,
               hops := (p.routing_header.hops.take (i + 1 + 1)).reverse }
              : RoutingHeader).next_hop
              = p.routing_header.hops.get? i))
    ∧ (p.routing_header.hops.findIdx? (fun h => self.packet_senders.contains h) = none →
        self.send_nack env p (.UnexpectedRecipient self.id) =
          self.send_packet_with env
            { pack_type := .Nack { fragment_index := p.get_fragment_index,
                                   nack_type := .UnexpectedRecipient self.id },
              routing_header :=
                { hop_index := 0,
                  hops := (p.routing_header.hops.take (p.routing_header.hop_index + 1)).reverse },
              session_id := p.session_id } []) := by
  have hg : p.routing_header.hops.get ⟨p.routing_header.hop_index, hidx⟩ ≠ self.id := by
    rwa [List.getD_eq_get _ _ hidx] at hwrong
  have hvp : self.validate_packet p = .err (.UnexpectedRecipient self.id) := by
    unfold GetDroned.validate_packet
    simp only [List.get?_eq_get hidx]
    rw [if_pos hg]
  refine ⟨?_, ?_, ?_, ?_, ?_⟩
  · intro hfrag
    obtain ⟨f, hf⟩ := hfrag
    obtain ⟨pt, rh, sid⟩ := p
    simp only at hf
    subst hf
    unfold GetDroned.process_packet
    rw [hvp]
  · intro hdisj
    obtain ⟨pt, rh, sid⟩ := p
    rcases hdisj with ⟨k, hk⟩ | ⟨k, hk⟩ | ⟨k, hk⟩ <;>
      (simp only at hk; subst hk; unfold GetDroned.process_packet; rw [hvp]; rfl)
  · intro fr hfr
    obtain ⟨pt, rh, sid⟩ := p
    simp only at hfr
    subst hfr
    rfl
  · intro i hfind
    refine ⟨?_, ?_, ?_⟩
    · have hfind2 := hfind
      rw [List.findIdx?_eq_some_iff_findIdx_eq] at hfind2
      obtain ⟨hlt2, hfi⟩ := hfind2
      refine ⟨p.routing_header.hops.get ⟨i, hlt2⟩, List.get?_eq_get hlt2, ?_⟩
      subst hfi
      simpa using List.findIdx_get (w := hlt2)
    · unfold GetDroned.send_nack send_nack_cursor RoutingHeader.sub_route_to
      rw [hfind]
      by_cases hle : i + 1 + 1 ≤ p.routing_header.hops.length
      · rw [if_pos hle, if_pos hle]
        rfl
      · rw [if_neg hle, if_neg hle]
    · intro hle
      have hlen : (p.routing_header.hops.take (i + 1 + 1)).length = i + 1 + 1 := by
        rw [List.length_take]
        omega
      show ((p.routing_header.hops.take (i + 1 + 1)).reverse).get? (0 + 1)
          = p.routing_header.hops.get? i
      rw [Nat.zero_add, List.get?_reverse (by omega), hlen]
      have harith : i + 1 + 1 - 1 - 1 = i := by omega
      rw [harith, List.get?_take (by omega)]
  · intro hfind
    unfold GetDroned.send_nack send_nack_cursor RoutingHeader.sub_route_to
    rw [hfind]
    rw [if_pos (by omega : p.routing_header.hop_index + 1 ≤ p.routing_header.hops.length)]
    rfl

/-- Witness for the amended C3 at a concrete drone and fragment. -/
theorem unexpected_recipient_nack_amended_witness :
    ({ id := 1, packet_drop_rate := 0, packet_senders := [2, 9], is_crashed := false,
       received_floods := [] } : GetDroned).process_packet ⟨fun _ => true⟩ 0
        { pack_type := .MsgFragment { fragment_index := 0, total_n_fragments := 1 },
          routing_header := { hop_index := 0, hops := [7, 2, 9] }, session_id := 0 }
      = some (({ id := 1, packet_drop_rate := 0, packet_senders := [2, 9], is_crashed := false,
                 received_floods := [] } : GetDroned).send_nack ⟨fun _ => true⟩
                { pack_type := .MsgFragment { fragment_index := 0, total_n_fragments := 1 },
                  routing_header := { hop_index := 0, hops := [7, 2, 9] }, session_id := 0 }
                (.UnexpectedRecipient 1),
              { id := 1, packet_drop_rate := 0, packet_senders := [2, 9], is_crashed := false,
                received_floods := [] }) :=
  (unexpected_recipient_nack_amended _ _ _ _ (by decide) (by decide)).1
    ⟨{ fragment_index := 0, total_n_fragments := 1 }, rfl⟩

/-- Counterexample to claim C4 as stated: a node with exactly one neighbor
(id 2), receiving a fresh FloodRequest (initiator 9, flood id 7) first
delivered from node 9, does NOT broadcast on the first delivery: it takes
the respond branch (and its response even dies silently since 9 is not a
neighbor), and the pair is not recorded as seen. -/
theorem flood_dedup_first_delivery_counterexample :
    (({ id := 1, packet_drop_rate := 0, packet_senders := [2], is_crashed := false,
        received_floods := [] } : GetDroned).process_flood_request ⟨fun _ => true⟩
          { pack_type := .FloodRequest
              { flood_id := 7, initiator_id := 9, path_trace := [(9, .Client)] },
            routing_header := { hop_index := 0, hops := [9, 1] }, session_id := 5 }
          { flood_id := 7, initiator_id := 9, path_trace := [(9, .Client)] }).1 = []
    ∧ (({ id := 1, packet_drop_rate := 0, packet_senders := [2], is_crashed := false,
          received_floods := [] } : GetDroned).process_flood_request ⟨fun _ => true⟩
            { pack_type := .FloodRequest
                { flood_id := 7, initiator_id := 9, path_trace := [(9, .Client)] },
              routing_header := { hop_index := 0, hops := [9, 1] }, session_id := 5 }
            { flood_id := 7, initiator_id := 9, path_trace := [(9, .Client)] }).2.received_floods
        = [] := by
  refine ⟨by decide, by decide⟩

/-- Claim C4 (amended): for a node whose neighbor count is not exactly one
and a `(initiator, flood_id)` pair it has not yet seen, the first delivery
marks the pair seen and broadcasts the updated request (with this node
appended to the path trace) to every live neighbor except the sender; and
at ANY node state that has the pair in its seen set - in particular after
that first delivery - a delivery of the same pair sends back the generated
FloodResponse and never re-broadcasts the request. -/
theorem flood_dedup_idempotent_amended (self : GetDroned) (env : NetEnv) (p : Packet)
    (fr : FloodRequest)
    (hfresh : (fr.initiator_id, fr.flood_id) ∉ self.received_floods)
    (hn : self.packet_senders.length ≠ 1) :
    (self.process_flood_request env p fr).2.received_floods
      = (fr.initiator_id, fr.flood_id) :: self.received_floods
    ∧ (self.process_flood_request env p fr).1
      = ({ self with received_floods := (fr.initiator_id, fr.flood_id) :: self.received_floods }
          : GetDroned).send_flood_request env
            { p with pack_type := .FloodRequest (fr.increment self.id .Drone) }
            (flood_sender_id fr)
    ∧ (∀ n ∈ self.packet_senders, n ≠ flood_sender_id fr → env.alive n = true →
        DroneAction.sent n { p with pack_type := .FloodRequest (fr.increment self.id .Drone) }
          ∈ (self.process_flood_request env p fr).1)
    ∧ (∀ (st : GetDroned) (env2 : NetEnv) (p2 : Packet) (fr2 : FloodRequest),
        (fr2.initiator_id, fr2.flood_id) ∈ st.received_floods →
          st.process_flood_request env2 p2 fr2
            = (st.send_packet env2 ((fr2.increment st.id .Drone).generate_response p2.session_id),
               st)
          ∧ ∀ a ∈ (st.process_flood_request env2 p2 fr2).1, a.isFloodRequestSend = false) := by
  have hbranch : self.process_flood_request env p fr
      = (({ self with
            received_floods := (fr.initiator_id, fr.flood_id) :: self.received_floods }
          : GetDroned).send_flood_request env
            { p with pack_type := .FloodRequest (fr.increment self.id .Drone) }
            (flood_sender_id fr),
         { self with
           received_floods := (fr.initiator_id, fr.flood_id) :: self.received_floods }) := by
    simp only [GetDroned.process_flood_request, FloodRequest.increment]
    rw [if_neg (not_or.mpr ⟨hfresh, hn⟩)]
  refine ⟨by rw [hbranch], by rw [hbranch], ?_, ?_⟩
  · intro n hmem hne halive
    rw [hbranch]
    unfold GetDroned.send_flood_request
    refine List.mem_flatten.mpr ⟨_, List.mem_map_of_mem _ hmem, ?_⟩
    simp [if_pos hne, if_pos halive]
  · intro st env2 p2 fr2 hseen
    have hresp : st.process_flood_request env2 p2 fr2
        = (st.send_packet env2 ((fr2.increment st.id .Drone).generate_response p2.session_id),
           st) := by
      simp only [GetDroned.process_flood_request, FloodRequest.increment]
      rw [if_pos (Or.inl hseen)]
    refine ⟨hresp, ?_⟩
    intro a ha
    rw [hresp] at ha
    rcases mem_send_packet ha with ⟨nh, rfl⟩ | rfl | rfl | rfl | ⟨q, hq, hforms⟩
    · rfl
    · rfl
    · rfl
    · rfl
    · rcases hforms with ⟨nh, rfl⟩ | rfl | rfl
      · simp [DroneAction.isFloodRequestSend, Packet.isFloodReq, hq]
      · rfl
      · rfl

/-- Witness for the amended C4 at a concrete two-neighbor drone. -/
theorem flood_dedup_idempotent_amended_witness :
    (({ id := 1, packet_drop_rate := 0, packet_senders := [2, 3], is_crashed := false,
        received_floods := [] } : GetDroned).process_flood_request ⟨fun _ => true⟩
          { pack_type := .FloodRequest
              { flood_id := 7, initiator_id := 9, path_trace := [(9, .Client)] },
            routing_header := { hop_index := 0, hops := [9, 1] }, session_id := 5 }
          { flood_id := 7, initiator_id := 9, path_trace := [(9, .Client)] }).2.received_floods
      = [(9, 7)] :=
  (flood_dedup_idempotent_amended _ _ _ _ (by decide) (by decide)).1

/-- Claim C8: a node with exactly one neighbor, receiving ANY FloodRequest
(seen or not), appends itself to the path trace and immediately hands the
FloodResponse built from the reversed path trace to the normal forwarding
path, and never broadcasts the request. -/
theorem single_neighbor_flood_response (self : GetDroned) (env : NetEnv) (p : Packet)
    (fr : FloodRequest) (hn : self.packet_senders.length = 1) :
    self.process_flood_request env p fr
      = (self.send_packet env ((fr.increment self.id .Drone).generate_response p.session_id),
         self)
    ∧ ((fr.increment self.id .Drone).generate_response p.session_id).routing_header.hops
      = ((fr.increment self.id .Drone).path_trace.map Prod.fst).reverse
    ∧ ∀ a ∈ (self.process_flood_request env p fr).1, a.isFloodRequestSend = false := by
  have hresp : self.process_flood_request env p fr
      = (self.send_packet env ((fr.increment self.id .Drone).generate_response p.session_id),
         self) := by
    simp only [GetDroned.process_flood_request, FloodRequest.increment]
    rw [if_pos (Or.inr hn)]
  refine ⟨hresp, rfl, ?_⟩
  intro a ha
  rw [hresp] at ha
  rcases mem_send_packet ha with ⟨nh, rfl⟩ | rfl | rfl | rfl | ⟨q, hq, hforms⟩
  · rfl
  · rfl
  · rfl
  · rfl
  · rcases hforms with ⟨nh, rfl⟩ | rfl | rfl
    · simp [DroneAction.isFloodRequestSend, Packet.isFloodReq, hq]
    · rfl
    · rfl

/-- Witness for C8 at a concrete single-neighbor drone. -/
theorem single_neighbor_flood_response_witness :
    ({ id := 1, packet_drop_rate := 0, packet_senders := [9], is_crashed := false,
       received_floods := [] } : GetDroned).process_flood_request ⟨fun _ => true⟩
        { pack_type := .FloodRequest
            { flood_id := 3, initiator_id := 9, path_trace := [(9, .Client)] },
          routing_header := { hop_index := 0, hops := [] }, session_id := 2 }
        { flood_id := 3, initiator_id := 9, path_trace := [(9, .Client)] }
      = (({ id := 1, packet_drop_rate := 0, packet_senders := [9], is_crashed := false,
            received_floods := [] } : GetDroned).send_packet ⟨fun _ => true⟩
            (({ flood_id := 3, initiator_id := 9,
                path_trace := [(9, .Client)] } : FloodRequest).increment 1 .Drone
              |>.generate_response 2),
         { id := 1, packet_drop_rate := 0, packet_senders := [9], is_crashed := false,
           received_floods := [] }) :=
  (single_neighbor_flood_response _ _ _ _ (by decide)).1

/-- `send_nack` never puts a fragment on a channel: everything it sends is a
NACK packet. -/
theorem send_nack_no_fragment_send {self : GetDroned} {env : NetEnv} {packet : Packet}
    {nt : NackType} {a : DroneAction} (ha : a ∈ self.send_nack env packet nt) :
    a.isFragmentSend = false := by
  rcases mem_send_nack ha with ⟨q, hq, ⟨nh, rfl⟩ | rfl | rfl⟩
  · simp [DroneAction.isFragmentSend, Packet.isMsgFragment, hq]
  · rfl
  · rfl

/-- Counterexample to claim C5 as stated.  A crashed drone (id 1, neighbor
3) that receives a Fragment whose current hop (3) is not its own id NACKs it
with `UnexpectedRecipient`, as validation runs before the crash check: the
emitted NACK is not `ErrorInRouting(1)`. -/
theorem crash_fragment_nack_counterexample :
    ((({ id := 1, packet_drop_rate := 0, packet_senders := [3], is_crashed := true,
         received_floods := [] } : GetDroned).process_packet ⟨fun _ => true⟩ 0
          { pack_type := .MsgFragment { fragment_index := 0, total_n_fragments := 1 },
            routing_header := { hop_index := 0, hops := [3, 2] },
            session_id := 0 }).map Prod.fst
      = some [DroneAction.sent 3
          { pack_type := .Nack { fragment_index := 0, nack_type := .UnexpectedRecipient 1 },
            routing_header := { hop_index := 1, hops := [2, 3] }, session_id := 0 },
         DroneAction.event (.PacketSent
          { pack_type := .Nack { fragment_index := 0, nack_type := .UnexpectedRecipient 1 },
            routing_header := { hop_index := 1, hops := [2, 3] }, session_id := 0 })])
    ∧ ([DroneAction.sent 3
          { pack_type := .Nack { fragment_index := 0, nack_type := .UnexpectedRecipient 1 },
            routing_header := { hop_index := 1, hops := [2, 3] }, session_id := 0 },
         DroneAction.event (.PacketSent
          { pack_type := .Nack { fragment_index := 0, nack_type := .UnexpectedRecipient 1 },
            routing_header := { hop_index := 1, hops := [2, 3] }, session_id := 0 })].all
        (fun a => !carriesNackOfType a (.ErrorInRouting 1))) = true := by
  refine ⟨by decide, by decide⟩

/-- Claim C5 (amended): a Crash command only sets the crash flag; afterwards
every delivered Fragment that passes route validation is NACKed with
`ErrorInRouting(self.id)` and never forwarded (fragments failing validation
get the validation NACK instead), while FloodRequest and passthrough (Ack,
Nack, FloodResponse) handling is unaffected by the crash flag. -/
theorem crash_behavior_amended (self : GetDroned) (env : NetEnv) (rnd : ℚ) (p : Packet) :
    self.process_command .Crash = { self with is_crashed := true }
    ∧ (self.is_crashed = true → (∃ f, p.pack_type = .MsgFragment f) →
        self.validate_packet p = .ok →
        self.process_packet env rnd p
          = some (self.send_nack env p (.ErrorInRouting self.id), self)
        ∧ ∀ a ∈ self.send_nack env p (.ErrorInRouting self.id), a.isFragmentSend = false)
    ∧ ((∀ f, p.pack_type ≠ .MsgFragment f) → ∀ b1 b2 : Bool,
        Option.map (fun r => (r.1, r.2.received_floods))
          (({ self with is_crashed := b1 } : GetDroned).process_packet env rnd p)
        = Option.map (fun r => (r.1, r.2.received_floods))
          (({ self with is_crashed := b2 } : GetDroned).process_packet env rnd p)) := by
  refine ⟨rfl, ?_, ?_⟩
  · intro hc hfrag hv
    obtain ⟨f, hf⟩ := hfrag
    obtain ⟨pt, rh, sid⟩ := p
    simp only at hf
    subst hf
    refine ⟨?_, fun a ha => send_nack_no_fragment_send ha⟩
    unfold GetDroned.process_packet
    rw [hv]
    unfold GetDroned.process_fragment
    rw [hc]
    simp
  · intro hnf b1 b2
    obtain ⟨pt, rh, sid⟩ := p
    cases pt with
    | MsgFragment f => exact absurd rfl (hnf f)
    | FloodRequest fr =>
      simp only [GetDroned.process_packet, GetDroned.process_flood_request,
        FloodRequest.increment, Option.map_some']
      by_cases hcond : ((fr.initiator_id, fr.flood_id) ∈ self.received_floods
          ∨ self.packet_senders.length = 1)
      · simp only [if_pos hcond]
        rfl
      · simp only [if_neg hcond]
        rfl
    | Ack a =>
      have hval : ({ self with is_crashed := b1 } : GetDroned).validate_packet
          { pack_type := .Ack a, routing_header := rh, session_id := sid }
          = ({ self with is_crashed := b2 } : GetDroned).validate_packet
            { pack_type := .Ack a, routing_header := rh, session_id := sid } := rfl
      simp only [GetDroned.process_packet]
      rw [hval]
      cases ({ self with is_crashed := b2 } : GetDroned).validate_packet
          { pack_type := .Ack a, routing_header := rh, session_id := sid } <;> rfl
    | Nack n =>
      have hval : ({ self with is_crashed := b1 } : GetDroned).validate_packet
          { pack_type := .Nack n, routing_header := rh, session_id := sid }
          = ({ self with is_crashed := b2 } : GetDroned).validate_packet
            { pack_type := .Nack n, routing_header := rh, session_id := sid } := rfl
      simp only [GetDroned.process_packet]
      rw [hval]
      cases ({ self with is_crashed := b2 } : GetDroned).validate_packet
          { pack_type := .Nack n, routing_header := rh, session_id := sid } <;> rfl
    | FloodResponse fr =>
      have hval : ({ self with is_crashed := b1 } : GetDroned).validate_packet
          { pack_type := .FloodResponse fr, routing_header := rh, session_id := sid }
          = ({ self with is_crashed := b2 } : GetDroned).validate_packet
            { pack_type := .FloodResponse fr, routing_header := rh, session_id := sid } := rfl
      simp only [GetDroned.process_packet]
      rw [hval]
      cases ({ self with is_crashed := b2 } : GetDroned).validate_packet
          { pack_type := .FloodResponse fr, routing_header := rh, session_id := sid } <;> rfl

/-- Witness for the amended C5 at a concrete crashed drone and validated
fragment. -/
theorem crash_behavior_amended_witness :
    ({ id := 1, packet_drop_rate := 0, packet_senders := [9], is_crashed := true,
       received_floods := [] } : GetDroned).process_packet ⟨fun _ => true⟩ 0
        { pack_type := .MsgFragment { fragment_index := 0, total_n_fragments := 1 },
          routing_header := { hop_index := 1, hops := [5, 1, 9] }, session_id := 0 }
      = some (({ id := 1, packet_drop_rate := 0, packet_senders := [9], is_crashed := true,
                 received_floods := [] } : GetDroned).send_nack ⟨fun _ => true⟩
                { pack_type := .MsgFragment { fragment_index := 0, total_n_fragments := 1 },
                  routing_header := { hop_index := 1, hops := [5, 1, 9] }, session_id := 0 }
                (.ErrorInRouting 1),
              { id := 1, packet_drop_rate := 0, packet_senders := [9], is_crashed := true,
                received_floods := [] }) :=
  ((crash_behavior_amended _ ⟨fun _ => true⟩ 0 _).2.1 rfl
    ⟨{ fragment_index := 0, total_n_fragments := 1 }, rfl⟩ (by decide)).1

/-- Counterexample to claim C6 as stated: a CRASHED node with drop-rate 1.0
processing a validated Fragment takes the crash branch, so for the draw 0
(a value in the unit interval) the whole trace is empty - no `Dropped` NACK
and no `PacketDropped` event, contradicting the unconditional claim. -/
theorem drop_rate_one_counterexample :
    ({ id := 1, packet_drop_rate := 1, packet_senders := [2], is_crashed := true,
       received_floods := [] } : GetDroned).process_fragment ⟨fun _ => true⟩ 0
        { pack_type := .MsgFragment { fragment_index := 0, total_n_fragments := 1 },
          routing_header := { hop_index := 1, hops := [5, 1, 2] }, session_id := 0 }
      = [] := by decide

/-- Claim C6 (amended): at a NON-CRASHED node with drop-rate 1.0, for every
draw in the unit interval, the Fragment takes the drop branch: a `Dropped`
NACK is generated from it and a `PacketDropped` event is emitted, and the
fragment itself is never put on a channel. -/
theorem drop_rate_one_amended (self : GetDroned) (env : NetEnv) (rnd : ℚ) (p : Packet)
    (hc : self.is_crashed = false) (hp : self.packet_drop_rate = 1)
    (h0 : 0 ≤ rnd) (h1 : rnd < 1) :
    self.process_fragment env rnd p
      = self.send_nack env p .Dropped ++ send_event (.PacketDropped p)
    ∧ ∀ a ∈ self.process_fragment env rnd p, a.isFragmentSend = false := by
  have hbranch : self.process_fragment env rnd p
      = self.send_nack env p .Dropped ++ send_event (.PacketDropped p) := by
    unfold GetDroned.process_fragment
    rw [hc, hp]
    simp only [Bool.false_eq_true, if_false]
    rw [if_pos ⟨by norm_num, h1⟩]
  refine ⟨hbranch, ?_⟩
  intro a ha
  rw [hbranch] at ha
  rcases List.mem_append.mp ha with h | h
  · exact send_nack_no_fragment_send h
  · simp only [send_event, List.mem_singleton] at h
    subst h
    rfl

/-- Witness for the amended C6 at a concrete drone and fragment. -/
theorem drop_rate_one_amended_witness :
    ({ id := 1, packet_drop_rate := 1, packet_senders := [2], is_crashed := false,
       received_floods := [] } : GetDroned).process_fragment ⟨fun _ => true⟩ 0
        { pack_type := .MsgFragment { fragment_index := 0, total_n_fragments := 1 },
          routing_header := { hop_index := 1, hops := [5, 1, 2] }, session_id := 0 }
      = ({ id := 1, packet_drop_rate := 1, packet_senders := [2], is_crashed := false,
           received_floods := [] } : GetDroned).send_nack ⟨fun _ => true⟩
            { pack_type := .MsgFragment { fragment_index := 0, total_n_fragments := 1 },
              routing_header := { hop_index := 1, hops := [5, 1, 2] }, session_id := 0 }
            .Dropped
        ++ send_event (.PacketDropped
            { pack_type := .MsgFragment { fragment_index := 0, total_n_fragments := 1 },
              routing_header := { hop_index := 1, hops := [5, 1, 2] }, session_id := 0 }) :=
  (drop_rate_one_amended _ _ _ _ rfl rfl (by decide) (by decide)).1

/-- Counterexample to claim C7 as stated: a crashed node with drop-rate 0.0
NACKs a validated Fragment instead of forwarding it (no action sends the
fragment), and a non-crashed node with drop-rate 0.0 whose next-hop channel
is dead also never sends the fragment (its fallback NACK even dies
silently); in both cases the claim's "the packet is forwarded" fails. -/
theorem drop_rate_zero_counterexample :
    ((({ id := 1, packet_drop_rate := 0, packet_senders := [2, 5], is_crashed := true,
         received_floods := [] } : GetDroned).process_fragment ⟨fun _ => true⟩ 0
          { pack_type := .MsgFragment { fragment_index := 0, total_n_fragments := 1 },
            routing_header := { hop_index := 1, hops := [5, 1, 2] }, session_id := 0 }).all
        (fun a => !a.isFragmentSend)) = true
    ∧ ({ id := 1, packet_drop_rate := 0, packet_senders := [2], is_crashed := false,
         received_floods := [] } : GetDroned).process_fragment ⟨fun _ => false⟩ 0
          { pack_type := .MsgFragment { fragment_index := 0, total_n_fragments := 1 },
            routing_header := { hop_index := 1, hops := [5, 1, 2] }, session_id := 0 }
        = [] := by
  refine ⟨by decide, by decide⟩

/-- Claim C7 (amended): at a non-crashed node with drop-rate 0.0, for every
draw in the unit interval, the Fragment is handed to the normal forwarding
path (`send_packet`, which actually transmits it only when the next-hop
channel is live), and it is never NACKed with `Dropped` and no
`PacketDropped` event is emitted. -/
theorem drop_rate_zero_amended (self : GetDroned) (env : NetEnv) (rnd : ℚ) (p : Packet)
    (f : Fragment) (hf : p.pack_type = .MsgFragment f)
    (hc : self.is_crashed = false) (hp : self.packet_drop_rate = 0)
    (h0 : 0 ≤ rnd) (h1 : rnd < 1) :
    self.process_fragment env rnd p = self.send_packet env p
    ∧ ∀ a ∈ self.process_fragment env rnd p,
        a.packet.isDroppedNack = false ∧ a.isPacketDroppedEvent = false := by
  have hbranch : self.process_fragment env rnd p = self.send_packet env p := by
    unfold GetDroned.process_fragment
    rw [hc, hp]
    simp only [Bool.false_eq_true, if_false]
    rw [if_neg (by simp [lt_irrefl])]
  refine ⟨hbranch, ?_⟩
  intro a ha
  rw [hbranch] at ha
  rcases mem_send_packet ha with ⟨nh, rfl⟩ | rfl | rfl | rfl | ⟨q, hq, hforms⟩
  · exact ⟨by simp [DroneAction.packet, Packet.isDroppedNack, Packet.advance, hf], rfl⟩
  · exact ⟨by simp [DroneAction.packet, Packet.isDroppedNack, Packet.advance, hf], rfl⟩
  · exact ⟨by simp [DroneAction.packet, Packet.isDroppedNack, Packet.advance, hf], rfl⟩
  · exact ⟨by simp [DroneAction.packet, Packet.isDroppedNack, hf], rfl⟩
  · rcases hforms with ⟨nh, rfl⟩ | rfl | rfl
    · exact ⟨by simp [DroneAction.packet, Packet.isDroppedNack, hq], rfl⟩
    · exact ⟨by simp [DroneAction.packet, Packet.isDroppedNack, hq], rfl⟩
    · exact ⟨by simp [DroneAction.packet, Packet.isDroppedNack, hq], rfl⟩

/-- Witness for the amended C7 at a concrete drone and fragment. -/
theorem drop_rate_zero_amended_witness :
    ({ id := 1, packet_drop_rate := 0, packet_senders := [2], is_crashed := false,
       received_floods := [] } : GetDroned).process_fragment ⟨fun _ => true⟩ 0
        { pack_type := .MsgFragment { fragment_index := 0, total_n_fragments := 1 },
          routing_header := { hop_index := 1, hops := [5, 1, 2] }, session_id := 0 }
      = ({ id := 1, packet_drop_rate := 0, packet_senders := [2], is_crashed := false,
           received_floods := [] } : GetDroned).send_packet ⟨fun _ => true⟩
            { pack_type := .MsgFragment { fragment_index := 0, total_n_fragments := 1 },
              routing_header := { hop_index := 1, hops := [5, 1, 2] }, session_id := 0 } :=
  (drop_rate_zero_amended _ _ _ _ { fragment_index := 0, total_n_fragments := 1 } rfl rfl rfl
    (by decide) (by decide)).1

/-- For every NACK kind other than `UnexpectedRecipient` (cursor at the
packet's hop index), when the hop before the current one is a known neighbor
with a live channel, the NACK is actually transmitted to it: the reversed
truncated path starts at the current hop and its next hop is the previous
one. -/
theorem send_nack_error_delivers (self : GetDroned) (env : NetEnv) (p : Packet) (j : NodeId)
    (prev : NodeId)
    (hlt : p.routing_header.hop_index < p.routing_header.hops.length)
    (h1 : 1 ≤ p.routing_header.hop_index)
    (hprev : p.routing_header.hops.get? (p.routing_header.hop_index - 1) = some prev)
    (hmem : self.packet_senders.contains prev = true)
    (halive : env.alive prev = true) :
    self.send_nack env p (.ErrorInRouting j)
      = [DroneAction.sent prev (errorNackPacket self p j),
         DroneAction.event (.PacketSent (errorNackPacket self p j))] := by
  have hlen : (p.routing_header.hops.take (p.routing_header.hop_index + 1)).length
      = p.routing_header.hop_index + 1 := by
    rw [List.length_take]
    omega
  have hrev : ((p.routing_header.hops.take (p.routing_header.hop_index + 1)).reverse).get? 1
      = some prev := by
    rw [List.get?_reverse (by omega), hlen]
    have harith : p.routing_header.hop_index + 1 - 1 - 1 = p.routing_header.hop_index - 1 := by
      omega
    rw [harith, List.get?_take (by omega)]
    exact hprev
  unfold GetDroned.send_nack send_nack_cursor RoutingHeader.sub_route_to
  rw [if_pos (by omega : p.routing_header.hop_index + 1 ≤ p.routing_header.hops.length)]
  unfold GetDroned.send_packet_with
  simp only [Packet.new_nack, RoutingHeader.get_reversed, RoutingHeader.next_hop, Nat.zero_add]
  rw [hrev]
  simp only [hmem, halive, if_true, send_event, Packet.advance, RoutingHeader.advance,
    Nat.zero_add, errorNackPacket]

/-- Counterexample to claim C9 as stated: a crashed drone (id 1, single
neighbor 9) receives a Fragment with path `[5,1,9]` at hop index 1; the
error is detected (crash NACK with `ErrorInRouting(1)` is generated), but
the NACK's reverse path leads to node 5, which is not a neighbor, so the
whole processing step produces NO action at all - the NACK is silently
swallowed, never transmitted. -/
theorem fragment_error_nack_counterexample :
    (({ id := 1, packet_drop_rate := 0, packet_senders := [9], is_crashed := true,
        received_floods := [] } : GetDroned).process_packet ⟨fun _ => true⟩ 0
        { pack_type := .MsgFragment { fragment_index := 0, total_n_fragments := 1 },
          routing_header := { hop_index := 1, hops := [5, 1, 9] },
          session_id := 0 }).map Prod.fst = some [] := by decide

/-- For every hop index in bounds, `send_nack` with an `ErrorInRouting`
reason reduces to `send_packet_with` of the built NACK packet whose path is
the reversed truncation of the original path at the hop index plus one. -/
theorem send_nack_error_eq (self : GetDroned) (env : NetEnv) (p : Packet) (j : NodeId)
    (hlt : p.routing_header.hop_index < p.routing_header.hops.length) :
    self.send_nack env p (.ErrorInRouting j)
      = self.send_packet_with env
          { pack_type := .Nack { fragment_index := p.get_fragment_index,
                                 nack_type := .ErrorInRouting j },
            routing_header :=
              { hop_index := 0,
                hops := (p.routing_header.hops.take (p.routing_header.hop_index + 1)).reverse },
            session_id := p.session_id } [] := by
  unfold GetDroned.send_nack send_nack_cursor RoutingHeader.sub_route_to
  rw [if_pos (by omega : p.routing_header.hop_index + 1 ≤ p.routing_header.hops.length)]
  rfl

/-- Claim C9 (amended): a Fragment error detected at a crashed node (a
validated fragment) always generates the `ErrorInRouting(self.id)` NACK and
hands it to the normal forwarding path, but transmission is not guaranteed:
the NACK is sent to the packet's previous hop when that hop is a known
neighbor with a live channel; it is escalated to the controller as a
`ControllerShortcut` event when the previous hop is a known neighbor with a
dead channel, or when the packet was at the start of its path (the reversed
path has no next hop); and it is silently dropped exactly when the previous
hop is not a known neighbor. -/
theorem fragment_error_nack_amended (self : GetDroned) (env : NetEnv) (rnd : ℚ)
    (p : Packet) (f : Fragment)
    (hc : self.is_crashed = true)
    (hf : p.pack_type = .MsgFragment f)
    (hv : self.validate_packet p = .ok) :
    self.process_packet env rnd p
      = some (self.send_nack env p (.ErrorInRouting self.id), self)
    ∧ (p.routing_header.hop_index = 0 →
        self.send_nack env p (.ErrorInRouting self.id)
          = [DroneAction.event (.ControllerShortcut
              { pack_type := .Nack { fragment_index := p.get_fragment_index,
                                     nack_type := .ErrorInRouting self.id },
                routing_header := { hop_index := 0,
                                    hops := (p.routing_header.hops.take 1).reverse },
                session_id := p.session_id })])
    ∧ ∀ prev, 1 ≤ p.routing_header.hop_index →
        p.routing_header.hops.get? (p.routing_header.hop_index - 1) = some prev →
        ((self.packet_senders.contains prev = true → env.alive prev = true →
          self.send_nack env p (.ErrorInRouting self.id)
            = [DroneAction.sent prev (errorNackPacket self p self.id),
               DroneAction.event (.PacketSent (errorNackPacket self p self.id))])
        ∧ (self.packet_senders.contains prev = true → env.alive prev = false →
          self.send_nack env p (.ErrorInRouting self.id)
            = [DroneAction.event (.ControllerShortcut (errorNackPacket self p self.id))])
        ∧ (self.packet_senders.contains prev = false →
          self.send_nack env p (.ErrorInRouting self.id) = [])) := by
  have hlt := validate_ok_lt hv
  refine ⟨?_, ?_, ?_⟩
  · obtain ⟨pt, rh, sid⟩ := p
    simp only at hf
    subst hf
    unfold GetDroned.process_packet
    rw [hv]
    unfold GetDroned.process_fragment
    rw [hc]
    simp only [if_true]
  · intro h0
    rw [send_nack_error_eq self env p self.id hlt, h0]
    unfold GetDroned.send_packet_with
    have hnone : ((p.routing_header.hops.take (0 + 1)).reverse).get? (0 + 1) = none := by
      apply List.get?_eq_none.mpr
      rw [List.length_reverse, List.length_take]
      omega
    simp only [RoutingHeader.next_hop, hnone, send_event]
  · intro prev h1 hprev
    have hlen : (p.routing_header.hops.take (p.routing_header.hop_index + 1)).length
        = p.routing_header.hop_index + 1 := by
      rw [List.length_take]
      omega
    have hrev : ((p.routing_header.hops.take (p.routing_header.hop_index + 1)).reverse).get? 1
        = some prev := by
      rw [List.get?_reverse (by omega), hlen]
      have harith : p.routing_header.hop_index + 1 - 1 - 1
          = p.routing_header.hop_index - 1 := by
        omega
      rw [harith, List.get?_take (by omega)]
      exact hprev
    refine ⟨?_, ?_, ?_⟩
    · intro hmem halive
      exact send_nack_error_delivers self env p self.id prev hlt h1 hprev hmem halive
    · intro hmem hdead
      rw [send_nack_error_eq self env p self.id hlt]
      unfold GetDroned.send_packet_with
      simp only [RoutingHeader.next_hop, Nat.zero_add, hrev, hmem, hdead, if_true,
        Bool.false_eq_true, if_false, send_event, errorNackPacket, Packet.advance,
        RoutingHeader.advance]
    · intro hnmem
      rw [send_nack_error_eq self env p self.id hlt]
      unfold GetDroned.send_packet_with
      simp only [RoutingHeader.next_hop, Nat.zero_add, hrev, hnmem, Bool.false_eq_true,
        if_false]

/-- Witness for the amended C9 at a concrete crashed drone whose previous
hop is a live neighbor. -/
theorem fragment_error_nack_amended_witness :
    ({ id := 1, packet_drop_rate := 0, packet_senders := [5, 9], is_crashed := true,
       received_floods := [] } : GetDroned).process_packet ⟨fun _ => true⟩ 0
        { pack_type := .MsgFragment { fragment_index := 0, total_n_fragments := 1 },
          routing_header := { hop_index := 1, hops := [5, 1, 9] }, session_id := 0 }
      = some ([DroneAction.sent 5 (errorNackPacket
                { id := 1, packet_drop_rate := 0, packet_senders := [5, 9], is_crashed := true,
                  received_floods := [] }
                { pack_type := .MsgFragment { fragment_index := 0, total_n_fragments := 1 },
                  routing_header := { hop_index := 1, hops := [5, 1, 9] }, session_id := 0 }
                1),
              DroneAction.event (.PacketSent (errorNackPacket
                { id := 1, packet_drop_rate := 0, packet_senders := [5, 9], is_crashed := true,
                  received_floods := [] }
                { pack_type := .MsgFragment { fragment_index := 0, total_n_fragments := 1 },
                  routing_header := { hop_index := 1, hops := [5, 1, 9] }, session_id := 0 }
                1))],
             { id := 1, packet_drop_rate := 0, packet_senders := [5, 9], is_crashed := true,
               received_floods := [] }) := by
  have h := fragment_error_nack_amended
    { id := 1, packet_drop_rate := 0, packet_senders := [5, 9], is_crashed := true,
      received_floods := [] } ⟨fun _ => true⟩ 0
    { pack_type := .MsgFragment { fragment_index := 0, total_n_fragments := 1 },
      routing_header := { hop_index := 1, hops := [5, 1, 9] }, session_id := 0 }
    { fragment_index := 0, total_n_fragments := 1 } rfl rfl (by decide)
  rw [h.1, ((h.2.2 5 (by decide) (by decide)).1 (by decide) rfl)]
